import Mathlib

/-!
Verification of the DAMM PnL tracker (damm-pnl.ts).

Shallow embedding conventions:
* JS `number` is modelled as `ℚ` (the program only adds, subtracts,
  multiplies, divides and compares finite decimal inputs).
* Optional interface fields (`capital_additions_usd?`, `is_closed?`, ...)
  are `Option` fields; the JS idiom `x || 0` is `qD`, JS truthiness of
  `is_closed` is `isClosedB`.
* Timestamps (ISO strings produced from `Date`) are modelled as integer
  epoch milliseconds, passed in as an explicit `now` parameter.
* The SOL price obtained from the async oracle `getSOLPriceUSD()` is an
  explicit parameter of `calculatePnl`.
* The position store (`damm_positions.json`, a JS object in insertion
  order) is a `List Position`; `savePositions` is modelled by the `.ok`
  result of a command, `process.exit(1)` before any save by `.error`.
-/

namespace DammPnl

/-- The `Position` interface (damm-pnl.ts lines 5-21). -/
structure Position where
  id : String
  token : String
  initial_value_usd : ℚ
  fees_claimed_usd : ℚ
  created_at : Int
  last_updated : Int
  capital_additions_usd : Option ℚ := none
  withdrawn_usd : Option ℚ := none
  total_invested_usd : Option ℚ := none
  closed_at : Option Int := none
  exit_value_usd : Option ℚ := none
  final_pnl_usd : Option ℚ := none
  final_pnl_percentage : Option ℚ := none
  is_closed : Option Bool := none
deriving DecidableEq

/-- JS `x || 0` on an optional numeric field. -/
def qD (x : Option ℚ) : ℚ := x.getD 0

/-- JS truthiness of the optional `is_closed` field. -/
def isClosedB (p : Position) : Bool := p.is_closed.getD false

/-- The `PnlData` interface (lines 23-39). -/
structure PnlData where
  unrealized_pnl_usd : ℚ
  realized_pnl_usd : ℚ
  total_pnl_usd : ℚ
  pnl_percentage : ℚ
  initial_value_usd : ℚ
  current_value_usd : ℚ
  total_invested_usd : ℚ
  unrealized_pnl_sol : ℚ
  realized_pnl_sol : ℚ
  total_pnl_sol : ℚ
  initial_value_sol : ℚ
  current_value_sol : ℚ
  total_invested_sol : ℚ
deriving DecidableEq

/-- Function `calculatePnl` (lines 312-365).  The source obtains `solPriceUSD`
from the price oracle; here it is an explicit argument. -/
def calculatePnl (position : Position) (currentValueUSD : ℚ) (solPriceUSD : ℚ) : PnlData :=
  let capitalAdditions := qD position.capital_additions_usd
  let withdrawn := qD position.withdrawn_usd
  let totalInvestedUSD := position.initial_value_usd + capitalAdditions
  let currentlyInvestedUSD := totalInvestedUSD - withdrawn
  let totalValueUSD := currentValueUSD + withdrawn + position.fees_claimed_usd
  let totalPnlUSD := totalValueUSD - totalInvestedUSD
  let unrealizedPnlUSD := currentValueUSD - currentlyInvestedUSD
  let realizedPnlUSD := withdrawn + position.fees_claimed_usd
  let pnlPercentage := if totalInvestedUSD > 0 then totalPnlUSD / totalInvestedUSD * 100 else 0
  let divPrice (x : ℚ) : ℚ := if solPriceUSD > 0 then x / solPriceUSD else 0
  { unrealized_pnl_usd := unrealizedPnlUSD
    realized_pnl_usd := realizedPnlUSD
    total_pnl_usd := totalPnlUSD
    pnl_percentage := pnlPercentage
    initial_value_usd := position.initial_value_usd
    current_value_usd := currentValueUSD
    total_invested_usd := totalInvestedUSD
    unrealized_pnl_sol := divPrice unrealizedPnlUSD
    realized_pnl_sol := divPrice realizedPnlUSD
    total_pnl_sol := divPrice totalPnlUSD
    initial_value_sol := divPrice position.initial_value_usd
    current_value_sol := divPrice currentValueUSD
    total_invested_sol := divPrice totalInvestedUSD }

/-- The action union of the `Suggestion` interface (line 42). -/
inductive SuggestAction
  | HOLD
  | TOP_UP
  | REDUCE
  | TAKE_PROFIT
  | STOP_LOSS
deriving DecidableEq

/-- The confidence union of the `Suggestion` interface (line 44). -/
inductive SuggestConfidence
  | LOW
  | MEDIUM
  | HIGH
deriving DecidableEq

/-- The `Suggestion` interface (lines 41-45). -/
structure Suggestion where
  action : SuggestAction
  reason : String
  confidence : SuggestConfidence
deriving DecidableEq

/-- Field names of the `THRESHOLDS` constant; `highFeesShare` stands for
the source field named `HIGH_FEES_` followed by `RATIO`. -/
structure ThresholdConfig where
  takeProfit : ℚ
  strongProfit : ℚ
  moderateProfit : ℚ
  breakEven : ℚ
  moderateLoss : ℚ
  stopLoss : ℚ
  highFeesShare : ℚ

/-- Constant `THRESHOLDS` (lines 80-88). -/
def THRESHOLDS : ThresholdConfig :=
  { takeProfit := 25
    strongProfit := 15
    moderateProfit := 5
    breakEven := 0
    moderateLoss := -10
    stopLoss := -20
    highFeesShare := 0.8 }

/-- Pad a digit string with leading zeros up to the given length. -/
def padZeros (s : String) (len : Nat) : String :=
  String.mk (List.replicate (len - s.length) '0') ++ s

/-- JS `Number.prototype.toFixed` on an exact rational: round to `f`
decimal places (ties away from zero, as the ECMAScript algorithm picks
the larger candidate for the magnitude) and render with exactly `f`
fractional digits. -/
def ratToFixed (x : ℚ) (f : Nat) : String :=
  let sign := if x < 0 then "-" else ""
  let n : Nat := (Rat.floor (|x| * (10 : ℚ) ^ f + 1 / 2)).toNat
  if f = 0 then sign ++ toString n
  else sign ++ toString (n / 10 ^ f) ++ "." ++ padZeros (toString (n % 10 ^ f)) f

/-- Reason template of the fee-risk rule (line 378). -/
def feeRiskReason (r : ℚ) : String :=
  "High fees earned (" ++ ratToFixed (r * 100) 0
    ++ "% of unrealized gains). Secure profits before market turns."

/-- Reason template of the percentage take-profit rule (line 387). -/
def excellentReason (pct : ℚ) : String :=
  "Excellent " ++ ratToFixed pct 1
    ++ "% return! Consider taking partial profits to secure gains."

/-- Reason template of the reduce-on-strong-profit rule (line 395). -/
def strongReason (pct : ℚ) : String :=
  "Strong " ++ ratToFixed pct 1
    ++ "% profit. Consider reducing position size to lock in gains while maintaining exposure."

/-- Reason template of the stop-loss rule (line 404). -/
def stopLossReason (pct : ℚ) : String :=
  "Position down " ++ ratToFixed (|pct|) 1 ++ "%. Consider cutting losses to preserve capital."

/-- Reason template of the reduce-on-old-losing-position rule (line 413). -/
def downLongReason (pct : ℚ) (daysOpen : Int) : String :=
  "Position down " ++ ratToFixed (|pct|) 1 ++ "% for " ++ toString daysOpen
    ++ " days. Consider reducing exposure or reevaluating thesis."

/-- Reason template of the hold-recent-losing-position rule (line 419). -/
def downRecentReason (pct : ℚ) (daysOpen : Int) : String :=
  "Down " ++ ratToFixed (|pct|) 1 ++ "% but position is recent (" ++ toString daysOpen
    ++ " days). Monitor closely."

/-- Reason template of the top-up rule (line 430). -/
def topUpReason (realized : ℚ) : String :=
  "Near breakeven with $" ++ ratToFixed realized 2
    ++ " in fees earned. Position showing promise - consider increasing."

/-- Reason of the hold-near-breakeven rule (line 436). -/
def nearBreakevenReason : String :=
  "Position near breakeven. Monitor for clear direction before making changes."

/-- Reason template of the hold-on-moderate-profit rule (line 446). -/
def goodProfitReason (pct : ℚ) : String :=
  "Good " ++ ratToFixed pct 1
    ++ "% profit with momentum. Hold position and monitor for further gains."

/-- Reason of the default hold rule (line 454). -/
def defaultHoldReason : String :=
  "Position performing as expected. Continue monitoring market conditions."

/-- Function `generateSuggestion` (lines 367-457).  `Date.now()` is the explicit
`now` parameter; `daysOpen` floors the millisecond difference divided by
one day, as `Math.floor` does. -/
def generateSuggestion (position : Position) (pnlData : PnlData) (now : Int) : Suggestion :=
  let pnlPercent := pnlData.pnl_percentage
  let unrealizedPnlUSD := pnlData.unrealized_pnl_usd
  let realizedPnlUSD := pnlData.realized_pnl_usd
  let daysOpen : Int := Int.fdiv (now - position.created_at) (1000 * 60 * 60 * 24)
  if unrealizedPnlUSD > 10 ∧ realizedPnlUSD / unrealizedPnlUSD > THRESHOLDS.highFeesShare then
    { action := .TAKE_PROFIT
      reason := feeRiskReason (realizedPnlUSD / unrealizedPnlUSD)
      confidence := .HIGH }
  else if pnlPercent ≥ THRESHOLDS.takeProfit then
    { action := .TAKE_PROFIT, reason := excellentReason pnlPercent, confidence := .HIGH }
  else if pnlPercent ≥ THRESHOLDS.strongProfit then
    { action := .REDUCE, reason := strongReason pnlPercent, confidence := .MEDIUM }
  else if pnlPercent ≤ THRESHOLDS.stopLoss then
    { action := .STOP_LOSS, reason := stopLossReason pnlPercent, confidence := .HIGH }
  else if pnlPercent ≤ THRESHOLDS.moderateLoss then
    if daysOpen > 30 then
      { action := .REDUCE, reason := downLongReason pnlPercent daysOpen, confidence := .MEDIUM }
    else
      { action := .HOLD, reason := downRecentReason pnlPercent daysOpen, confidence := .LOW }
  else if pnlPercent ≥ THRESHOLDS.breakEven ∧ pnlPercent < THRESHOLDS.moderateProfit then
    if realizedPnlUSD > 0 then
      { action := .TOP_UP, reason := topUpReason realizedPnlUSD, confidence := .MEDIUM }
    else
      { action := .HOLD, reason := nearBreakevenReason, confidence := .LOW }
  else if pnlPercent ≥ THRESHOLDS.moderateProfit ∧ pnlPercent < THRESHOLDS.strongProfit then
    { action := .HOLD, reason := goodProfitReason pnlPercent, confidence := .MEDIUM }
  else
    { action := .HOLD, reason := defaultHoldReason, confidence := .LOW }

/-- Function `initializePosition` (lines 297-310).  The generated id and the
current instant are explicit parameters. -/
def initializePosition (token : String) (initialValueUSD : ℚ) (idn : String)
    (now : Int) : Position :=
  { id := idn
    token := token
    initial_value_usd := initialValueUSD
    fees_claimed_usd := 0
    created_at := now
    last_updated := now
    capital_additions_usd := some 0
    withdrawn_usd := some 0
    total_invested_usd := some initialValueUSD }

/-- The per-record normalization `loadPositions` applies to every stored
position on load (lines 250-254): `total_invested_usd` is recomputed as
`initial_value_usd + (capital_additions_usd || 0)`.  (The token-keyed and
reduction-field migrations of lines 236-248 concern the legacy schema,
which predates the `Position` interface modelled here.) -/
def migratePosition (pos : Position) : Position :=
  { pos with total_invested_usd := some (pos.initial_value_usd + qD pos.capital_additions_usd) }

/-- The mutation of the generic record command on an existing active
position (lines 1215-1216): fees are appended and `last_updated`
refreshed. -/
def recordUpdatePos (position : Position) (feesToAddUSD : ℚ) (now : Int) : Position :=
  { position with
    fees_claimed_usd := position.fees_claimed_usd + feesToAddUSD
    last_updated := now }

/-- The mutation of the `claim-fee` command (lines 997-998). -/
def claimFeePos (position : Position) (feesToClaimUSD : ℚ) (now : Int) : Position :=
  { position with
    fees_claimed_usd := position.fees_claimed_usd + feesToClaimUSD
    last_updated := now }

/-- The mutation of the `add-capital` command (lines 1032-1043):
undefined cumulative fields are initialized to 0, the capital addition is
accumulated and `total_invested_usd` recomputed. -/
def addCapitalPos (position : Position) (additionalCapital : ℚ) (now : Int) : Position :=
  let capitalAdditions := qD position.capital_additions_usd + additionalCapital
  { position with
    capital_additions_usd := some capitalAdditions
    withdrawn_usd := some (qD position.withdrawn_usd)
    total_invested_usd := some (position.initial_value_usd + capitalAdditions)
    last_updated := now }

/-- The mutation of the `withdraw` command (lines 1077-1090): only
`withdrawn_usd` is accumulated; `total_invested_usd` is re-stored as
`initial + additions`. -/
def withdrawPos (position : Position) (amountToTake : ℚ) (now : Int) : Position :=
  let totalInvested := position.initial_value_usd + qD position.capital_additions_usd
  { position with
    capital_additions_usd := some (qD position.capital_additions_usd)
    withdrawn_usd := some (qD position.withdrawn_usd + amountToTake)
    total_invested_usd := some totalInvested
    last_updated := now }

/-- The mutation of the `close` command (lines 1135-1160): final fees are
first added to `fees_claimed_usd`, then the final PnL is computed from
the updated fees, and the record is frozen. -/
def closePos (position : Position) (exitValueUSD finalFeesUSD : ℚ) (now : Int) : Position :=
  let pos1 : Position :=
    { position with
      capital_additions_usd := some (qD position.capital_additions_usd)
      withdrawn_usd := some (qD position.withdrawn_usd)
      fees_claimed_usd := position.fees_claimed_usd + finalFeesUSD }
  let totalInvested := pos1.initial_value_usd + qD pos1.capital_additions_usd
  let withdrawn := qD pos1.withdrawn_usd
  let totalValueUSD := exitValueUSD + withdrawn + pos1.fees_claimed_usd
  let finalTotalPnlUSD := totalValueUSD - totalInvested
  let finalPnlPercentage :=
    if totalInvested > 0 then finalTotalPnlUSD / totalInvested * 100 else 0
  { pos1 with
    closed_at := some now
    exit_value_usd := some exitValueUSD
    final_pnl_usd := some finalTotalPnlUSD
    final_pnl_percentage := some finalPnlPercentage
    total_invested_usd := some totalInvested
    is_closed := some true
    last_updated := now }

/-- The stored-total invariant of the spec: the persisted
`total_invested_usd` equals `initial_value_usd + capital_additions_usd`
(missing additions read as 0). -/
def investedInvariant (p : Position) : Prop :=
  p.total_invested_usd = some (p.initial_value_usd + qD p.capital_additions_usd)

/-- The position store: the values of the JSON record, in insertion
order (`Object.values` iterates string keys in insertion order). -/
abbrev Store := List Position

/-- The case-insensitive token comparison used by position lookups
(line 280). -/
def tokenMatches (p : Position) (token : String) : Bool :=
  p.token.toLower == token.toLower

/-- Function `findActivePosition` (lines 278-285): the first position whose token
matches case-insensitively and which is not closed. -/
def findActivePosition (s : Store) (token : String) : Option Position :=
  s.find? (fun p => tokenMatches p token && !isClosedB p)

/-- In-place mutation of the position with the given id, as performed on
the object reference returned by `findActivePosition`, followed by
`savePositions` of the whole record. -/
def updatePos (s : Store) (idn : String) (f : Position → Position) : Store :=
  s.map (fun q => if q.id == idn then f q else q)

/-- Command failure modes.  `.error` models `process.exit(1)` reached
before any `savePositions` call, so an erroring command never writes the
store; `.ok` carries the store that is saved. -/
inductive CmdError
  | invalidNumber
  | nonPositive
  | notFound
deriving DecidableEq

/-- The `claim-fee` command (lines 971-1004).  The numeric argument is
the result of `parseFloat`: `none` models `NaN`. -/
def claimFeeCmd (s : Store) (token : String) (feesArg : Option ℚ) (now : Int) :
    Except CmdError Store :=
  match feesArg with
  | none => .error .invalidNumber
  | some feesToClaimUSD =>
    if feesToClaimUSD ≤ 0 then .error .nonPositive
    else
      match findActivePosition s token with
      | none => .error .notFound
      | some position => .ok (updatePos s position.id (fun q => claimFeePos q feesToClaimUSD now))

/-- The `add-capital` command (lines 1006-1049). -/
def addCapitalCmd (s : Store) (token : String) (capArg : Option ℚ) (now : Int) :
    Except CmdError Store :=
  match capArg with
  | none => .error .invalidNumber
  | some additionalCapital =>
    if additionalCapital ≤ 0 then .error .nonPositive
    else
      match findActivePosition s token with
      | none => .error .notFound
      | some position =>
        .ok (updatePos s position.id (fun q => addCapitalPos q additionalCapital now))

/-- The `withdraw` command (lines 1051-1098). -/
def withdrawCmd (s : Store) (token : String) (amountArg : Option ℚ) (now : Int) :
    Except CmdError Store :=
  match amountArg with
  | none => .error .invalidNumber
  | some amountToTake =>
    if amountToTake ≤ 0 then .error .nonPositive
    else
      match findActivePosition s token with
      | none => .error .notFound
      | some position =>
        .ok (updatePos s position.id (fun q => withdrawPos q amountToTake now))

/-- The `close` command after the final fees were parsed (or defaulted
to 0): the exit value parse is checked, then its positivity, then the
active position is looked up and closed. -/
def closeCmdParsed (s : Store) (token : String) (exitArg : Option ℚ)
    (finalFeesUSD : ℚ) (now : Int) : Except CmdError Store :=
  match exitArg with
  | none => .error .invalidNumber
  | some exitValueUSD =>
    if exitValueUSD ≤ 0 then .error .nonPositive
    else
      match findActivePosition s token with
      | none => .error .notFound
      | some position =>
        .ok (updatePos s position.id (fun q => closePos q exitValueUSD finalFeesUSD now))

/-- The `close` command (lines 1100-1178).  The optional final-fees
argument is `none` when absent (defaulting to 0) and `some none` when
present but `NaN`; the source checks the final-fees parse first, then
the exit value parse, then positivity of the exit value only.  Note: no
sign check is performed on the final fees. -/
def closeCmd (s : Store) (token : String) (exitArg : Option ℚ)
    (finalFeesArg : Option (Option ℚ)) (now : Int) : Except CmdError Store :=
  match finalFeesArg with
  | some none => .error .invalidNumber
  | some (some ff) => closeCmdParsed s token exitArg ff now
  | none => closeCmdParsed s token exitArg 0 now

/-- The record command after both numeric arguments were parsed: with no
active position a fresh position is created and appended, otherwise the
fees are added to the existing active position. -/
def recordCmdParsed (s : Store) (token : String) (currentValueUSD feesToAddUSD : ℚ)
    (idn : String) (now : Int) : Except CmdError Store :=
  match findActivePosition s token with
  | none => .ok (s ++ [initializePosition token currentValueUSD idn now])
  | some position => .ok (updatePos s position.id (fun q => recordUpdatePos q feesToAddUSD now))

/-- The generic record command `<token> <value> [fees]` (lines
1180-1224): the current value parse is checked, then the optional fees
parse.  Note: no sign check is performed on the fees. -/
def recordCmd (s : Store) (token : String) (valueArg : Option ℚ)
    (feesArg : Option (Option ℚ)) (idn : String) (now : Int) : Except CmdError Store :=
  match valueArg with
  | none => .error .invalidNumber
  | some currentValueUSD =>
    match feesArg with
    | some none => .error .invalidNumber
    | some (some feesToAddUSD) => recordCmdParsed s token currentValueUSD feesToAddUSD idn now
    | none => recordCmdParsed s token currentValueUSD 0 idn now

/-- The `remove` command (lines 914-937): deletes the active position by
its id. -/
def removeCmd (s : Store) (token : String) : Except CmdError Store :=
  match findActivePosition s token with
  | none => .error .notFound
  | some position => .ok (s.filter (fun q => !(q.id == position.id)))

/-- The `reset` command (lines 939-968): deletes the active position and
appends a freshly initialized one (the new value is only checked for
`NaN`, any sign is accepted). -/
def resetCmd (s : Store) (token : String) (newValArg : Option ℚ) (idn : String)
    (now : Int) : Except CmdError Store :=
  match newValArg with
  | none => .error .invalidNumber
  | some newInitialValue =>
    match findActivePosition s token with
    | none => .error .notFound
    | some oldPosition =>
      .ok (s.filter (fun q => !(q.id == oldPosition.id))
            ++ [initializePosition token newInitialValue idn now])

/-- Of any two store entries with the same token key, at least one is
closed. -/
def pairOK (p q : Position) : Prop :=
  p.token.toLower = q.token.toLower → (isClosedB p = true ∨ isClosedB q = true)

/-- At most one active position per token: every pair of store entries
is `pairOK`; this also rules out a duplicated active entry. -/
def atMostOneActive (s : Store) : Prop :=
  s.Pairwise pairOK

/-- A concrete closed position used for evaluating the commands. -/
def samplePosClosed : Position :=
  { id := "p0", token := "tok", initial_value_usd := 100, fees_claimed_usd := 10,
    created_at := 0, last_updated := 5, capital_additions_usd := some 0,
    withdrawn_usd := some 0, total_invested_usd := some 100,
    closed_at := some 5, exit_value_usd := some 120, final_pnl_usd := some 30,
    final_pnl_percentage := some 30, is_closed := some true }

/-- A concrete active position used for evaluating the commands. -/
def samplePosActive : Position :=
  { id := "p1", token := "tok", initial_value_usd := 100, fees_claimed_usd := 10,
    created_at := 0, last_updated := 0, capital_additions_usd := some 0,
    withdrawn_usd := some 0, total_invested_usd := some 100 }

/-- The mutable accumulators of the `forEach` loop inside
`calculateSummaryStats` (lines 647-656). -/
structure SummaryAcc where
  totalInvestedUSD : ℚ
  totalPnlUSD : ℚ
  winningPositions : Nat
  losingPositions : Nat
  totalWinPnlUSD : ℚ
  totalLossPnlUSD : ℚ
  biggestWinUSD : ℚ
  biggestLossUSD : ℚ
  biggestWinPercent : ℚ
  biggestLossPercent : ℚ
deriving DecidableEq

/-- One iteration of the `forEach` loop of `calculateSummaryStats`
(lines 658-684). -/
def summaryStep (acc : SummaryAcc) (position : Position) : SummaryAcc :=
  let pnlUSD := qD position.final_pnl_usd
  let pnlPercent := qD position.final_pnl_percentage
  let acc1 : SummaryAcc :=
    { acc with
      totalInvestedUSD := acc.totalInvestedUSD + qD position.total_invested_usd
      totalPnlUSD := acc.totalPnlUSD + pnlUSD }
  if pnlUSD > 0 then
    { acc1 with
      winningPositions := acc1.winningPositions + 1
      totalWinPnlUSD := acc1.totalWinPnlUSD + pnlUSD
      biggestWinUSD := if pnlUSD > acc1.biggestWinUSD then pnlUSD else acc1.biggestWinUSD
      biggestWinPercent :=
        if pnlPercent > acc1.biggestWinPercent then pnlPercent else acc1.biggestWinPercent }
  else if pnlUSD < 0 then
    { acc1 with
      losingPositions := acc1.losingPositions + 1
      totalLossPnlUSD := acc1.totalLossPnlUSD + pnlUSD
      biggestLossUSD := if pnlUSD < acc1.biggestLossUSD then pnlUSD else acc1.biggestLossUSD
      biggestLossPercent :=
        if pnlPercent < acc1.biggestLossPercent then pnlPercent else acc1.biggestLossPercent }
  else acc1

/-- The zero-initialized accumulator. -/
def initSummaryAcc : SummaryAcc :=
  { totalInvestedUSD := 0, totalPnlUSD := 0, winningPositions := 0, losingPositions := 0,
    totalWinPnlUSD := 0, totalLossPnlUSD := 0, biggestWinUSD := 0, biggestLossUSD := 0,
    biggestWinPercent := 0, biggestLossPercent := 0 }

/-- The record returned by `calculateSummaryStats` (lines 631-646). -/
structure SummaryStats where
  totalInvestedUSD : ℚ
  totalPnlUSD : ℚ
  winningPositions : Nat
  losingPositions : Nat
  totalWinPnlUSD : ℚ
  totalLossPnlUSD : ℚ
  winRate : ℚ
  lossRate : ℚ
  overallPnlPercentage : ℚ
  biggestWinUSD : ℚ
  biggestLossUSD : ℚ
  biggestWinPercent : ℚ
  biggestLossPercent : ℚ
  expectedValueUSD : ℚ
deriving DecidableEq

/-- Function `calculateSummaryStats` (lines 631-714). -/
def calculateSummaryStats (positions : List Position) : SummaryStats :=
  let acc := positions.foldl summaryStep initSummaryAcc
  let totalPositions := positions.length
  let winRate :=
    if totalPositions > 0 then ((acc.winningPositions : ℚ) / totalPositions) * 100 else 0
  let lossRate :=
    if totalPositions > 0 then ((acc.losingPositions : ℚ) / totalPositions) * 100 else 0
  let overallPnlPercentage :=
    if acc.totalInvestedUSD > 0 then acc.totalPnlUSD / acc.totalInvestedUSD * 100 else 0
  let avgWinUSD :=
    if acc.winningPositions > 0 then acc.totalWinPnlUSD / (acc.winningPositions : ℚ) else 0
  let avgLossUSD :=
    if acc.losingPositions > 0 then acc.totalLossPnlUSD / (acc.losingPositions : ℚ) else 0
  let winProbability :=
    if totalPositions > 0 then (acc.winningPositions : ℚ) / totalPositions else 0
  let lossProbability :=
    if totalPositions > 0 then (acc.losingPositions : ℚ) / totalPositions else 0
  let expectedValueUSD := winProbability * avgWinUSD + lossProbability * avgLossUSD
  { totalInvestedUSD := acc.totalInvestedUSD
    totalPnlUSD := acc.totalPnlUSD
    winningPositions := acc.winningPositions
    losingPositions := acc.losingPositions
    totalWinPnlUSD := acc.totalWinPnlUSD
    totalLossPnlUSD := acc.totalLossPnlUSD
    winRate := winRate
    lossRate := lossRate
    overallPnlPercentage := overallPnlPercentage
    biggestWinUSD := acc.biggestWinUSD
    biggestLossUSD := acc.biggestLossUSD
    biggestWinPercent := acc.biggestWinPercent
    biggestLossPercent := acc.biggestLossPercent
    expectedValueUSD := expectedValueUSD }

/-- Three closed positions with final PnLs +100, -50 and +20, the
aggregate-reporting scenario of the spec. -/
def scenarioPositions : List Position :=
  [ { id := "s1", token := "a", initial_value_usd := 100, fees_claimed_usd := 0,
      created_at := 0, last_updated := 0, total_invested_usd := some 100,
      final_pnl_usd := some 100, final_pnl_percentage := some 100, is_closed := some true },
    { id := "s2", token := "b", initial_value_usd := 100, fees_claimed_usd := 0,
      created_at := 0, last_updated := 0, total_invested_usd := some 100,
      final_pnl_usd := some (-50), final_pnl_percentage := some (-50), is_closed := some true },
    { id := "s3", token := "c", initial_value_usd := 100, fees_claimed_usd := 0,
      created_at := 0, last_updated := 0, total_invested_usd := some 100,
      final_pnl_usd := some 20, final_pnl_percentage := some 20, is_closed := some true } ]

end DammPnl

namespace DammPnl

/-- The fee-risk reason text differs from the percentage take-profit
reason text for every pair of inputs: the two templates begin with
different literal prefixes. -/
theorem feeRiskReason_ne_excellentReason (a b : ℚ) :
    feeRiskReason a ≠ excellentReason b := by
  unfold feeRiskReason excellentReason
  intro h
  have h2 := congrArg String.data h
  simp [String.data_append] at h2

/-- C1: `calculatePnl` returns
`unrealizedPnlUSD = currentValueUSD - (totalInvestedUSD - withdrawn_usd)`,
`realizedPnlUSD = withdrawn_usd + fees_claimed_usd` and
`totalPnlUSD = (currentValueUSD + withdrawn_usd + fees_claimed_usd) -
(initial_value_usd + capital_additions_usd)`, with missing
`capital_additions_usd` / `withdrawn_usd` treated as 0 (`qD`).  The
embedding is a pure function of the position, so the position is never
mutated. -/
theorem claim1_pnl_formulas (p : Position) (cv price : ℚ) :
    (calculatePnl p cv price).unrealized_pnl_usd
      = cv - ((p.initial_value_usd + qD p.capital_additions_usd) - qD p.withdrawn_usd)
    ∧ (calculatePnl p cv price).realized_pnl_usd
      = qD p.withdrawn_usd + p.fees_claimed_usd
    ∧ (calculatePnl p cv price).total_pnl_usd
      = (cv + qD p.withdrawn_usd + p.fees_claimed_usd)
        - (p.initial_value_usd + qD p.capital_additions_usd) := by
  refine ⟨rfl, rfl, rfl⟩

/-- C10: the PnL figures satisfy
`total_pnl_usd = unrealized_pnl_usd + realized_pnl_usd - withdrawn_usd`;
total PnL equals the sum of unrealized and realized PnL exactly when
nothing has been withdrawn, and is strictly smaller whenever
`withdrawn_usd > 0`. -/
theorem claim10_pnl_decomposition (p : Position) (cv price : ℚ) :
    (calculatePnl p cv price).total_pnl_usd
      = (calculatePnl p cv price).unrealized_pnl_usd
        + (calculatePnl p cv price).realized_pnl_usd - qD p.withdrawn_usd
    ∧ (qD p.withdrawn_usd = 0 →
        (calculatePnl p cv price).total_pnl_usd
          = (calculatePnl p cv price).unrealized_pnl_usd
            + (calculatePnl p cv price).realized_pnl_usd)
    ∧ (0 < qD p.withdrawn_usd →
        (calculatePnl p cv price).total_pnl_usd
          < (calculatePnl p cv price).unrealized_pnl_usd
            + (calculatePnl p cv price).realized_pnl_usd) := by
  refine ⟨by simp [calculatePnl]; ring, ?_, ?_⟩
  · intro h
    simp [calculatePnl, h]
    ring
  · intro h
    simp only [calculatePnl]
    linarith

/-- Witness for C10 at a concrete position with `withdrawn_usd = 5`. -/
theorem claim10_pnl_decomposition_w :
    (calculatePnl
        { id := "w", token := "tok", initial_value_usd := 100, fees_claimed_usd := 2,
          created_at := 0, last_updated := 0, withdrawn_usd := some 5 } 120 10).total_pnl_usd
      < (calculatePnl
        { id := "w", token := "tok", initial_value_usd := 100, fees_claimed_usd := 2,
          created_at := 0, last_updated := 0, withdrawn_usd := some 5 } 120 10).unrealized_pnl_usd
        + (calculatePnl
        { id := "w", token := "tok", initial_value_usd := 100, fees_claimed_usd := 2,
          created_at := 0, last_updated := 0, withdrawn_usd := some 5 } 120 10).realized_pnl_usd :=
  (claim10_pnl_decomposition _ 120 10).2.2 (by decide)

/-- C5: the suggestion rules form an ordered decision list; when the
fee-risk guard (`unrealizedPnlUSD > 10` and
`realizedPnlUSD / unrealizedPnlUSD > 0.8`) holds, even with
`pnlPercentage >= 25`, the result is the fee-risk `TAKE_PROFIT` with
HIGH confidence and the fee-risk reason text, which differs from the
percentage-based `TAKE_PROFIT` reason for every input; the guard also
forces `unrealizedPnlUSD` to be positive, so the ratio is only formed on
a positive denominator. -/
theorem claim5_fee_risk_precedence (position : Position) (pd : PnlData) (now : Int)
    (h1 : pd.unrealized_pnl_usd > 10)
    (h2 : pd.realized_pnl_usd / pd.unrealized_pnl_usd > THRESHOLDS.highFeesShare)
    (h3 : pd.pnl_percentage ≥ THRESHOLDS.takeProfit) :
    generateSuggestion position pd now
      = { action := .TAKE_PROFIT
          reason := feeRiskReason (pd.realized_pnl_usd / pd.unrealized_pnl_usd)
          confidence := .HIGH }
    ∧ (∀ q : ℚ, feeRiskReason (pd.realized_pnl_usd / pd.unrealized_pnl_usd)
        ≠ excellentReason q)
    ∧ 0 < pd.unrealized_pnl_usd := by
  refine ⟨?_, fun q => feeRiskReason_ne_excellentReason _ q, by linarith⟩
  simp only [generateSuggestion]
  rw [if_pos ⟨h1, h2⟩]

/-- Witness for C5: a concrete snapshot with unrealized PnL 100, realized
PnL 90 (ratio 0.9) and percentage 30 yields the fee-risk suggestion, and
its reason differs from the percentage-based reason at 30 percent. -/
theorem claim5_fee_risk_precedence_w :
    generateSuggestion
        { id := "w5", token := "tok", initial_value_usd := 100, fees_claimed_usd := 0,
          created_at := 0, last_updated := 0 }
        { unrealized_pnl_usd := 100, realized_pnl_usd := 90, total_pnl_usd := 190,
          pnl_percentage := 30, initial_value_usd := 100, current_value_usd := 200,
          total_invested_usd := 100, unrealized_pnl_sol := 0, realized_pnl_sol := 0,
          total_pnl_sol := 0, initial_value_sol := 0, current_value_sol := 0,
          total_invested_sol := 0 } 0
      = { action := .TAKE_PROFIT
          reason := feeRiskReason ((90 : ℚ) / 100)
          confidence := .HIGH }
    ∧ feeRiskReason ((90 : ℚ) / 100) ≠ excellentReason 30 := by
  have h := claim5_fee_risk_precedence
    { id := "w5", token := "tok", initial_value_usd := 100, fees_claimed_usd := 0,
      created_at := 0, last_updated := 0 }
    { unrealized_pnl_usd := 100, realized_pnl_usd := 90, total_pnl_usd := 190,
      pnl_percentage := 30, initial_value_usd := 100, current_value_usd := 200,
      total_invested_usd := 100, unrealized_pnl_sol := 0, realized_pnl_sol := 0,
      total_pnl_sol := 0, initial_value_sol := 0, current_value_sol := 0,
      total_invested_sol := 0 } 0
    (by norm_num) (by norm_num [THRESHOLDS]) (by norm_num [THRESHOLDS])
  exact ⟨h.1, h.2.1 30⟩

/-- C2: after each mutating command on an active position (create,
record-update, claim-fee, add-capital, withdraw, close) the stored
`total_invested_usd` equals `initial_value_usd + capital_additions_usd`.
Every command loads the store through `loadPositions`, which re-derives
`total_invested_usd` for each record (`migratePosition`), so each
command's mutation is applied to a migrated position.  A withdraw of a
positive amount strictly increases `withdrawn_usd` and leaves
`total_invested_usd`, `initial_value_usd`, `capital_additions_usd` and
`fees_claimed_usd` unchanged. -/
theorem claim2_invested_invariant (p : Position) (token idn : String)
    (initV amt fees exitV ffees : ℚ) (now : Int) :
    investedInvariant (initializePosition token initV idn now)
    ∧ investedInvariant (recordUpdatePos (migratePosition p) fees now)
    ∧ investedInvariant (claimFeePos (migratePosition p) fees now)
    ∧ investedInvariant (addCapitalPos (migratePosition p) amt now)
    ∧ investedInvariant (withdrawPos (migratePosition p) amt now)
    ∧ investedInvariant (closePos (migratePosition p) exitV ffees now)
    ∧ (withdrawPos (migratePosition p) amt now).total_invested_usd
        = (migratePosition p).total_invested_usd
    ∧ (withdrawPos (migratePosition p) amt now).initial_value_usd
        = (migratePosition p).initial_value_usd
    ∧ qD (withdrawPos (migratePosition p) amt now).capital_additions_usd
        = qD (migratePosition p).capital_additions_usd
    ∧ (withdrawPos (migratePosition p) amt now).fees_claimed_usd
        = (migratePosition p).fees_claimed_usd
    ∧ (withdrawPos (migratePosition p) amt now).withdrawn_usd
        = some (qD (migratePosition p).withdrawn_usd + amt)
    ∧ (0 < amt →
        qD (migratePosition p).withdrawn_usd
          < qD (withdrawPos (migratePosition p) amt now).withdrawn_usd) := by
  refine ⟨?_, ?_, ?_, ?_, ?_, ?_, rfl, rfl, rfl, rfl, rfl, ?_⟩
  · simp [investedInvariant, initializePosition, qD]
  · simp [investedInvariant, recordUpdatePos, migratePosition, qD]
  · simp [investedInvariant, claimFeePos, migratePosition, qD]
  · simp [investedInvariant, addCapitalPos, migratePosition, qD]
  · simp [investedInvariant, withdrawPos, migratePosition, qD]
  · simp [investedInvariant, closePos, migratePosition, qD]
  · intro h
    simp only [withdrawPos, migratePosition, qD, Option.getD_some]
    linarith

/-- Witness for C2: withdrawing 1 from a concrete migrated position
strictly increases its recorded withdrawn amount. -/
theorem claim2_invested_invariant_w :
    qD (migratePosition
        { id := "w2", token := "tok", initial_value_usd := 100, fees_claimed_usd := 0,
          created_at := 0, last_updated := 0 }).withdrawn_usd
      < qD (withdrawPos (migratePosition
        { id := "w2", token := "tok", initial_value_usd := 100, fees_claimed_usd := 0,
          created_at := 0, last_updated := 0 }) 1 3).withdrawn_usd :=
  (claim2_invested_invariant
    { id := "w2", token := "tok", initial_value_usd := 100, fees_claimed_usd := 0,
      created_at := 0, last_updated := 0 }
    "tok" "w2" 0 1 0 0 0 3).2.2.2.2.2.2.2.2.2.2.2 (by decide)

/-- C3: `close` first adds the final fees to `fees_claimed_usd`, then
sets `final_pnl_usd = (exitValue + withdrawn_usd + fees_claimed_usd) -
(initial_value_usd + capital_additions_usd)` (with the updated fees) and
`final_pnl_percentage` accordingly, and freezes the record with
`is_closed = true`, `closed_at` and `exit_value_usd` stored.  In the
concrete scenario (initial 200, additions 100, withdrawn 50, fees 5,
exit 500, final fees 10) the fees become 15, the final PnL 265 and the
final percentage 265/300*100. -/
theorem claim3_close_semantics (p : Position) (exitV ffees : ℚ) (now : Int) :
    ((closePos p exitV ffees now).fees_claimed_usd = p.fees_claimed_usd + ffees
    ∧ (closePos p exitV ffees now).final_pnl_usd
        = some ((exitV + qD p.withdrawn_usd + (p.fees_claimed_usd + ffees))
            - (p.initial_value_usd + qD p.capital_additions_usd))
    ∧ (closePos p exitV ffees now).final_pnl_percentage
        = some (if p.initial_value_usd + qD p.capital_additions_usd > 0 then
            ((exitV + qD p.withdrawn_usd + (p.fees_claimed_usd + ffees))
                - (p.initial_value_usd + qD p.capital_additions_usd))
              / (p.initial_value_usd + qD p.capital_additions_usd) * 100
          else 0)
    ∧ (closePos p exitV ffees now).is_closed = some true
    ∧ (closePos p exitV ffees now).closed_at = some now
    ∧ (closePos p exitV ffees now).exit_value_usd = some exitV)
    ∧ ((closePos
          { id := "c3", token := "tok", initial_value_usd := 200, fees_claimed_usd := 5,
            created_at := 0, last_updated := 0, capital_additions_usd := some 100,
            withdrawn_usd := some 50, total_invested_usd := some 300 }
          500 10 7).fees_claimed_usd = 15
      ∧ (closePos
          { id := "c3", token := "tok", initial_value_usd := 200, fees_claimed_usd := 5,
            created_at := 0, last_updated := 0, capital_additions_usd := some 100,
            withdrawn_usd := some 50, total_invested_usd := some 300 }
          500 10 7).final_pnl_usd = some 265
      ∧ (closePos
          { id := "c3", token := "tok", initial_value_usd := 200, fees_claimed_usd := 5,
            created_at := 0, last_updated := 0, capital_additions_usd := some 100,
            withdrawn_usd := some 50, total_invested_usd := some 300 }
          500 10 7).final_pnl_percentage = some (265 / 300 * 100)) := by
  refine ⟨⟨rfl, rfl, rfl, rfl, rfl, rfl⟩, ?_, ?_, ?_⟩
  · norm_num [closePos, qD]
  · norm_num [closePos, qD]
  · norm_num [closePos, qD]

/-- C4: the PnL computation is guarded against division by zero: with
`total_invested_usd = 0` the percentage is exactly 0 for any current
value, and with a non-positive reference price every SOL field of the
result is exactly 0. -/
theorem claim4_division_guards (p : Position) (cv price : ℚ) :
    (p.initial_value_usd + qD p.capital_additions_usd = 0 →
      (calculatePnl p cv price).pnl_percentage = 0)
    ∧ (price ≤ 0 →
        (calculatePnl p cv price).unrealized_pnl_sol = 0
        ∧ (calculatePnl p cv price).realized_pnl_sol = 0
        ∧ (calculatePnl p cv price).total_pnl_sol = 0
        ∧ (calculatePnl p cv price).initial_value_sol = 0
        ∧ (calculatePnl p cv price).current_value_sol = 0
        ∧ (calculatePnl p cv price).total_invested_sol = 0) := by
  constructor
  · intro h
    simp [calculatePnl, h]
  · intro h
    have hng : ¬ price > 0 := not_lt.mpr h
    simp [calculatePnl, hng]

/-- Witness for C4 at a concrete position with zero invested capital and
a zero reference price. -/
theorem claim4_division_guards_w :
    (calculatePnl
        { id := "w4", token := "tok", initial_value_usd := 0, fees_claimed_usd := 3,
          created_at := 0, last_updated := 0 } 7 0).pnl_percentage = 0
    ∧ (calculatePnl
        { id := "w4", token := "tok", initial_value_usd := 0, fees_claimed_usd := 3,
          created_at := 0, last_updated := 0 } 7 0).total_pnl_sol = 0 :=
  ⟨(claim4_division_guards
      { id := "w4", token := "tok", initial_value_usd := 0, fees_claimed_usd := 3,
        created_at := 0, last_updated := 0 } 7 0).1 (by simp [qD]),
   ((claim4_division_guards
      { id := "w4", token := "tok", initial_value_usd := 0, fees_claimed_usd := 3,
        created_at := 0, last_updated := 0 } 7 0).2 (by norm_num)).2.2.1⟩

/-- Relation `pairOK` is symmetric. -/
theorem pairOK_symm : Symmetric pairOK := by
  intro p q h heq
  rcases h heq.symm with h1 | h1
  · exact Or.inr h1
  · exact Or.inl h1

/-- A map preserving tokens and never re-opening a closed position maps
`pairOK` pairs to `pairOK` pairs. -/
theorem pairOK_map (g : Position → Position)
    (htok : ∀ q, (g q).token = q.token)
    (hcl : ∀ q, isClosedB q = true → isClosedB (g q) = true)
    {a b : Position} (hab : pairOK a b) : pairOK (g a) (g b) := by
  intro heq
  rw [htok, htok] at heq
  rcases hab heq with h1 | h1
  · exact Or.inl (hcl a h1)
  · exact Or.inr (hcl b h1)

/-- An `updatePos` with a token-preserving, closure-preserving transform
keeps the one-active-position-per-token property. -/
theorem atMostOneActive_updatePos {s : Store} {idn : String} {f : Position → Position}
    (htok : ∀ q, (f q).token = q.token)
    (hcl : ∀ q, isClosedB q = true → isClosedB (f q) = true)
    (h : atMostOneActive s) : atMostOneActive (updatePos s idn f) := by
  unfold atMostOneActive updatePos
  rw [List.pairwise_map]
  have htok' : ∀ q : Position, (if q.id == idn then f q else q).token = q.token := by
    intro q
    by_cases hq : q.id == idn
    · simp [hq, htok]
    · simp [hq]
  have hcl' : ∀ q : Position,
      isClosedB q = true → isClosedB (if q.id == idn then f q else q) = true := by
    intro q hc
    by_cases hq : q.id == idn
    · simp [hq, hcl q hc]
    · simp [hq, hc]
  exact h.imp (pairOK_map _ htok' hcl')

/-- Appending a freshly initialized position for a token with no active
position keeps the one-active-position-per-token property. -/
theorem atMostOneActive_append_new {s : Store} {token : String} (v : ℚ) (idn : String)
    (now : Int) (hfind : findActivePosition s token = none)
    (h : atMostOneActive s) :
    atMostOneActive (s ++ [initializePosition token v idn now]) := by
  unfold atMostOneActive at *
  rw [List.pairwise_append]
  refine ⟨h, by simp, ?_⟩
  intro a ha b hb
  simp only [List.mem_singleton] at hb
  subst hb
  intro heq
  left
  have hnone := List.find?_eq_none.mp hfind a ha
  by_cases hc : isClosedB a = true
  · exact hc
  · exfalso
    apply hnone
    have htm : tokenMatches a token = true := by
      unfold tokenMatches
      exact beq_iff_eq.mpr heq
    rw [Bool.and_eq_true, htm]
    refine ⟨rfl, ?_⟩
    simp only [Bool.not_eq_true] at hc
    simp [hc]

/-- A store filter keeps the one-active-position-per-token property. -/
theorem atMostOneActive_filter {s : Store} (p : Position → Bool)
    (h : atMostOneActive s) : atMostOneActive (s.filter p) :=
  h.sublist (List.filter_sublist s)

/-- Deleting the unique active position of a token and appending a fresh
one keeps the one-active-position-per-token property. -/
theorem atMostOneActive_reset {s : Store} {token : String} (v : ℚ) (idn : String)
    (now : Int) {p : Position} (hfind : findActivePosition s token = some p)
    (h : atMostOneActive s) :
    atMostOneActive (s.filter (fun q => !(q.id == p.id))
      ++ [initializePosition token v idn now]) := by
  have hmem : p ∈ s := List.mem_of_find?_eq_some hfind
  have hp := List.find?_some hfind
  rw [Bool.and_eq_true] at hp
  unfold atMostOneActive at *
  rw [List.pairwise_append]
  refine ⟨h.sublist (List.filter_sublist s), by simp, ?_⟩
  intro a ha b hb
  simp only [List.mem_singleton] at hb
  subst hb
  intro heq
  left
  rw [List.mem_filter] at ha
  obtain ⟨haS, hane⟩ := ha
  have hane' : a ≠ p := by
    intro hcontra
    subst hcontra
    simp at hane
  have htok_p : p.token.toLower = token.toLower := by
    have := hp.1
    unfold tokenMatches at this
    exact beq_iff_eq.mp this
  have hpair := h.forall pairOK_symm haS hmem hane'
  rcases hpair (heq.trans htok_p.symm) with h1 | h1
  · exact h1
  · exfalso
    have := hp.2
    rw [h1] at this
    simp at this

/-- When every stored position of a token is closed, the active lookup
finds nothing. -/
theorem findActivePosition_eq_none {s : Store} {token : String}
    (hclosed : ∀ p ∈ s, tokenMatches p token = true → isClosedB p = true) :
    findActivePosition s token = none := by
  unfold findActivePosition
  rw [List.find?_eq_none]
  intro x hx hcontra
  rw [Bool.and_eq_true] at hcontra
  have hcx := hclosed x hx hcontra.1
  have := hcontra.2
  rw [hcx] at this
  simp at this

/-- C6: once all positions of a token are closed, `findActivePosition`
returns nothing (it filters out `is_closed` records) and each of the
mutating commands add-capital, withdraw, claim-fee and close fails with
the not-found error, hence performs no store write; moreover every
store-mutating command preserves the at-most-one-active-position-per-
token property. -/
theorem claim6_frozen_and_unique_active (s : Store) (token idn : String)
    (amt exitV ffv : ℚ) (now : Int) (hamt : 0 < amt) (hexit : 0 < exitV) :
    ((∀ p ∈ s, tokenMatches p token = true → isClosedB p = true) →
      findActivePosition s token = none
      ∧ addCapitalCmd s token (some amt) now = .error .notFound
      ∧ withdrawCmd s token (some amt) now = .error .notFound
      ∧ claimFeeCmd s token (some amt) now = .error .notFound
      ∧ closeCmd s token (some exitV) (some (some ffv)) now = .error .notFound
      ∧ closeCmd s token (some exitV) none now = .error .notFound)
    ∧ (atMostOneActive s →
        (∀ s' v ff, recordCmd s token (some v) (some (some ff)) idn now = .ok s' →
          atMostOneActive s')
        ∧ (∀ s' v, recordCmd s token (some v) none idn now = .ok s' → atMostOneActive s')
        ∧ (∀ s' a, addCapitalCmd s token (some a) now = .ok s' → atMostOneActive s')
        ∧ (∀ s' a, withdrawCmd s token (some a) now = .ok s' → atMostOneActive s')
        ∧ (∀ s' a, claimFeeCmd s token (some a) now = .ok s' → atMostOneActive s')
        ∧ (∀ s' ev ff, closeCmd s token (some ev) (some (some ff)) now = .ok s' →
          atMostOneActive s')
        ∧ (∀ s' nv, resetCmd s token (some nv) idn now = .ok s' → atMostOneActive s')
        ∧ (∀ s', removeCmd s token = .ok s' → atMostOneActive s')) := by
  constructor
  · intro hclosed
    have hfind := findActivePosition_eq_none hclosed
    refine ⟨hfind, ?_, ?_, ?_, ?_, ?_⟩
    · simp only [addCapitalCmd]
      rw [if_neg (not_le.mpr hamt), hfind]
    · simp only [withdrawCmd]
      rw [if_neg (not_le.mpr hamt), hfind]
    · simp only [claimFeeCmd]
      rw [if_neg (not_le.mpr hamt), hfind]
    · simp only [closeCmd, closeCmdParsed]
      rw [if_neg (not_le.mpr hexit), hfind]
    · simp only [closeCmd, closeCmdParsed]
      rw [if_neg (not_le.mpr hexit), hfind]
  · intro hmo
    have hrec : ∀ s' v f, recordCmdParsed s token v f idn now = .ok s' →
        atMostOneActive s' := by
      intro s' v f h
      unfold recordCmdParsed at h
      cases hfind : findActivePosition s token with
      | none =>
        rw [hfind] at h
        simp only [Except.ok.injEq] at h
        subst h
        exact atMostOneActive_append_new v idn now hfind hmo
      | some p =>
        rw [hfind] at h
        simp only [Except.ok.injEq] at h
        subst h
        exact atMostOneActive_updatePos (fun q => rfl) (fun q hc => hc) hmo
    refine ⟨fun s' v ff h => hrec s' v ff h, fun s' v h => hrec s' v 0 h, ?_, ?_, ?_, ?_, ?_, ?_⟩
    · intro s' a h
      simp only [addCapitalCmd] at h
      by_cases ha : a ≤ 0
      · rw [if_pos ha] at h
        exact absurd h (by simp)
      · rw [if_neg ha] at h
        cases hfind : findActivePosition s token with
        | none =>
          rw [hfind] at h
          exact absurd h (by simp)
        | some p =>
          rw [hfind] at h
          simp only [Except.ok.injEq] at h
          subst h
          exact atMostOneActive_updatePos (fun q => rfl) (fun q hc => hc) hmo
    · intro s' a h
      simp only [withdrawCmd] at h
      by_cases ha : a ≤ 0
      · rw [if_pos ha] at h
        exact absurd h (by simp)
      · rw [if_neg ha] at h
        cases hfind : findActivePosition s token with
        | none =>
          rw [hfind] at h
          exact absurd h (by simp)
        | some p =>
          rw [hfind] at h
          simp only [Except.ok.injEq] at h
          subst h
          exact atMostOneActive_updatePos (fun q => rfl) (fun q hc => hc) hmo
    · intro s' a h
      simp only [claimFeeCmd] at h
      by_cases ha : a ≤ 0
      · rw [if_pos ha] at h
        exact absurd h (by simp)
      · rw [if_neg ha] at h
        cases hfind : findActivePosition s token with
        | none =>
          rw [hfind] at h
          exact absurd h (by simp)
        | some p =>
          rw [hfind] at h
          simp only [Except.ok.injEq] at h
          subst h
          exact atMostOneActive_updatePos (fun q => rfl) (fun q hc => hc) hmo
    · intro s' ev ff h
      simp only [closeCmd, closeCmdParsed] at h
      by_cases hev : ev ≤ 0
      · rw [if_pos hev] at h
        exact absurd h (by simp)
      · rw [if_neg hev] at h
        cases hfind : findActivePosition s token with
        | none =>
          rw [hfind] at h
          exact absurd h (by simp)
        | some p =>
          rw [hfind] at h
          simp only [Except.ok.injEq] at h
          subst h
          exact atMostOneActive_updatePos (fun q => rfl) (fun q hc => rfl) hmo
    · intro s' nv h
      unfold resetCmd at h
      cases hfind : findActivePosition s token with
      | none =>
        rw [hfind] at h
        exact absurd h (by simp)
      | some p =>
        rw [hfind] at h
        simp only [Except.ok.injEq] at h
        subst h
        exact atMostOneActive_reset nv idn now hfind hmo
    · intro s' h
      unfold removeCmd at h
      cases hfind : findActivePosition s token with
      | none =>
        rw [hfind] at h
        exact absurd h (by simp)
      | some p =>
        rw [hfind] at h
        simp only [Except.ok.injEq] at h
        subst h
        exact atMostOneActive_filter _ hmo

/-- The active lookup on a store holding exactly the sample active
position finds it (the token comparison holds by reflexivity of `==`,
without evaluating `String.toLower`). -/
theorem findActive_sampleActive :
    findActivePosition [samplePosActive] "tok" = some samplePosActive := by
  unfold findActivePosition
  have hpred : (tokenMatches samplePosActive "tok" && !isClosedB samplePosActive) = true := by
    simp [samplePosActive, tokenMatches, isClosedB]
  simp [List.find?_cons, hpred]

/-- A claim-fee of 5 on the sample one-active-position store succeeds
and writes the updated store. -/
theorem claimFeeCmd_sampleActive :
    claimFeeCmd [samplePosActive] "tok" (some 5) 1
      = .ok (updatePos [samplePosActive] "p1" (fun q => claimFeePos q 5 1)) := by
  simp only [claimFeeCmd]
  rw [if_neg (by norm_num : ¬ (5 : ℚ) ≤ 0), findActive_sampleActive]
  rfl

/-- Witness for C6: on a store holding only a closed position for
`"tok"`, the lookup finds nothing and add-capital fails not-found; and a
claim-fee on a store holding one active position preserves the
at-most-one-active property. -/
theorem claim6_frozen_and_unique_active_w :
    findActivePosition [samplePosClosed] "tok" = none
    ∧ addCapitalCmd [samplePosClosed] "tok" (some 5) 1 = .error .notFound
    ∧ claimFeeCmd [samplePosClosed] "tok" (some 5) 1 = .error .notFound
    ∧ atMostOneActive (updatePos [samplePosActive] "p1" (fun q => claimFeePos q 5 1)) := by
  have h1 := (claim6_frozen_and_unique_active [samplePosClosed] "tok" "n1" 5 7 2 1
    (by norm_num) (by norm_num)).1 (by intro p hp _; rw [List.mem_singleton] at hp; subst hp; rfl)
  have h2 := (claim6_frozen_and_unique_active [samplePosActive] "tok" "n1" 5 7 2 1
    (by norm_num) (by norm_num)).2 (by simp [atMostOneActive])
  exact ⟨h1.1, h1.2.1, h1.2.2.2.1,
    h2.2.2.2.2.1 (updatePos [samplePosActive] "p1" (fun q => claimFeePos q 5 1)) 5
      claimFeeCmd_sampleActive⟩

/-- C7 counterexample: the claim requires a negative final-fees argument
on `close` to terminate with a non-zero exit and no store write, but the
code only checks the final fees for `NaN`: closing an active position
with final fees -10 succeeds and writes the store (and even decreases
the recorded fees). -/
theorem claim7_counterexample :
    closeCmd [samplePosActive] "tok" (some 500) (some (some (-10))) 1
      = .ok [closePos samplePosActive 500 (-10) 1]
    ∧ (closePos samplePosActive 500 (-10) 1).fees_claimed_usd
        < samplePosActive.fees_claimed_usd := by
  constructor
  · simp only [closeCmd, closeCmdParsed]
    rw [if_neg (by norm_num : ¬ (500 : ℚ) ≤ 0), findActive_sampleActive]
    rfl
  · norm_num [closePos, samplePosActive]

/-- C7 amended: every numeric argument is `NaN`-checked before use and a
malformed argument makes the command fail without a store write;
non-positive amounts are rejected for claim-fee, add-capital and
withdraw, and a non-positive exit value for close — but the final fees
of close are only `NaN`-checked, so a negative final fee is accepted. -/
theorem claim7_validation_amended (s : Store) (token idn : String)
    (amt ev v : ℚ) (ff : Option (Option ℚ)) (now : Int) :
    claimFeeCmd s token none now = .error .invalidNumber
    ∧ (amt ≤ 0 → claimFeeCmd s token (some amt) now = .error .nonPositive)
    ∧ addCapitalCmd s token none now = .error .invalidNumber
    ∧ (amt ≤ 0 → addCapitalCmd s token (some amt) now = .error .nonPositive)
    ∧ withdrawCmd s token none now = .error .invalidNumber
    ∧ (amt ≤ 0 → withdrawCmd s token (some amt) now = .error .nonPositive)
    ∧ closeCmd s token (some ev) (some none) now = .error .invalidNumber
    ∧ closeCmd s token none none now = .error .invalidNumber
    ∧ (ev ≤ 0 →
        closeCmd s token (some ev) none now = .error .nonPositive
        ∧ closeCmd s token (some ev) (some (some v)) now = .error .nonPositive)
    ∧ recordCmd s token none ff idn now = .error .invalidNumber
    ∧ recordCmd s token (some v) (some none) idn now = .error .invalidNumber
    ∧ resetCmd s token none idn now = .error .invalidNumber := by
  refine ⟨rfl, ?_, rfl, ?_, rfl, ?_, rfl, rfl, ?_, ?_, rfl, rfl⟩
  · intro h
    simp only [claimFeeCmd]
    rw [if_pos h]
  · intro h
    simp only [addCapitalCmd]
    rw [if_pos h]
  · intro h
    simp only [withdrawCmd]
    rw [if_pos h]
  · intro h
    constructor
    · simp only [closeCmd, closeCmdParsed]
      rw [if_pos h]
    · simp only [closeCmd, closeCmdParsed]
      rw [if_pos h]
  · cases ff with
    | none => rfl
    | some o => cases o with
      | none => rfl
      | some q => rfl

/-- Witness for C7 at concrete inputs: a `NaN` fee argument and a
non-positive fee amount are both rejected, as is a non-positive exit
value on close. -/
theorem claim7_validation_amended_w :
    claimFeeCmd [] "tok" none 0 = .error .invalidNumber
    ∧ claimFeeCmd [] "tok" (some 0) 0 = .error .nonPositive
    ∧ closeCmd [] "tok" (some (-3)) none 0 = .error .nonPositive := by
  have h := claim7_validation_amended [] "tok" "n1" 0 (-3) 4 none 0
  exact ⟨h.1, h.2.1 (by norm_num), (h.2.2.2.2.2.2.2.2.1 (by norm_num)).1⟩

/-- C8 counterexample: the claim says no operation ever decreases
`fees_claimed_usd`, but the generic record command only `NaN`-checks its
fees argument: recording with fees -5 on an active position with fees 10
succeeds and decreases the stored fees to 5. -/
theorem claim8_counterexample :
    recordCmd [samplePosActive] "tok" (some 100) (some (some (-5))) "n1" 2
      = .ok [recordUpdatePos samplePosActive (-5) 2]
    ∧ (recordUpdatePos samplePosActive (-5) 2).fees_claimed_usd
        < samplePosActive.fees_claimed_usd := by
  constructor
  · simp only [recordCmd, recordCmdParsed]
    rw [findActive_sampleActive]
    rfl
  · norm_num [recordUpdatePos, samplePosActive]

/-- C8 amended: `fees_claimed_usd` never decreases under a claim-fee
(whose amount is validated positive), nor under a record update or a
close whose fees argument is non-negative; the record update and close
mutations can decrease it when handed a negative fees argument. -/
theorem claim8_fees_monotone_amended (p : Position) (f amt ev ff : ℚ) (now : Int)
    (hf : 0 ≤ f) (hff : 0 ≤ ff) (hamt : 0 < amt) :
    p.fees_claimed_usd ≤ (recordUpdatePos p f now).fees_claimed_usd
    ∧ p.fees_claimed_usd < (claimFeePos p amt now).fees_claimed_usd
    ∧ p.fees_claimed_usd ≤ (closePos p ev ff now).fees_claimed_usd := by
  have h1 : (recordUpdatePos p f now).fees_claimed_usd = p.fees_claimed_usd + f := rfl
  have h2 : (claimFeePos p amt now).fees_claimed_usd = p.fees_claimed_usd + amt := rfl
  have h3 : (closePos p ev ff now).fees_claimed_usd = p.fees_claimed_usd + ff := rfl
  exact ⟨by rw [h1]; linarith, by rw [h2]; linarith, by rw [h3]; linarith⟩

/-- Witness for C8 at a concrete position: a claim-fee of 2 strictly
increases the recorded fees. -/
theorem claim8_fees_monotone_amended_w :
    samplePosActive.fees_claimed_usd < (claimFeePos samplePosActive 2 9).fees_claimed_usd :=
  (claim8_fees_monotone_amended samplePosActive 0 2 7 1 9
    (by norm_num) (by norm_num) (by norm_num)).2.1

/-- One loop iteration increments the win counter exactly on a positive
final PnL. -/
theorem summaryStep_winningPositions (acc : SummaryAcc) (p : Position) :
    (summaryStep acc p).winningPositions
      = acc.winningPositions + (if 0 < qD p.final_pnl_usd then 1 else 0) := by
  by_cases h : 0 < qD p.final_pnl_usd
  · simp [summaryStep, h]
  · by_cases h2 : qD p.final_pnl_usd < 0
    · simp [summaryStep, h, h2]
    · simp [summaryStep, h, h2]

/-- One loop iteration increments the loss counter exactly on a negative
final PnL. -/
theorem summaryStep_losingPositions (acc : SummaryAcc) (p : Position) :
    (summaryStep acc p).losingPositions
      = acc.losingPositions + (if qD p.final_pnl_usd < 0 then 1 else 0) := by
  by_cases h : 0 < qD p.final_pnl_usd
  · have h2 : ¬ qD p.final_pnl_usd < 0 := not_lt.mpr h.le
    simp [summaryStep, h, h2]
  · by_cases h2 : qD p.final_pnl_usd < 0
    · simp [summaryStep, h, h2]
    · simp [summaryStep, h, h2]

/-- The loop counts the positions with positive final PnL. -/
theorem summary_foldl_wins (ps : List Position) (acc : SummaryAcc) :
    (ps.foldl summaryStep acc).winningPositions
      = acc.winningPositions + ps.countP (fun p => decide (0 < qD p.final_pnl_usd)) := by
  induction ps generalizing acc with
  | nil => simp
  | cons p ps ih =>
    rw [List.foldl_cons, ih, summaryStep_winningPositions, List.countP_cons]
    simp only [decide_eq_true_eq]
    omega

/-- The loop counts the positions with negative final PnL. -/
theorem summary_foldl_losses (ps : List Position) (acc : SummaryAcc) :
    (ps.foldl summaryStep acc).losingPositions
      = acc.losingPositions + ps.countP (fun p => decide (qD p.final_pnl_usd < 0)) := by
  induction ps generalizing acc with
  | nil => simp
  | cons p ps ih =>
    rw [List.foldl_cons, ih, summaryStep_losingPositions, List.countP_cons]
    simp only [decide_eq_true_eq]
    omega

/-- C9: aggregate reporting counts the closed positions with
`final_pnl_usd > 0` as wins and those with `final_pnl_usd < 0` as
losses, computes the win rate as `winningPositions / totalPositions *
100` (exactly 0 on the empty set) and the expected value as
`P(win)*avgWin + P(loss)*avgLoss` where the average loss carries its
negative sign; on the three-position scenario with final PnLs +100, -50
and +20 the win rate is 200/3 (66.7 percent) and the expected value is
(2/3)*60 + (1/3)*(-50) = 70/3 (23.33). -/
theorem claim9_summary_stats (ps : List Position) :
    (calculateSummaryStats ps).winningPositions
      = ps.countP (fun p => decide (0 < qD p.final_pnl_usd))
    ∧ (calculateSummaryStats ps).losingPositions
      = ps.countP (fun p => decide (qD p.final_pnl_usd < 0))
    ∧ (calculateSummaryStats ps).winRate
      = (if 0 < ps.length then
          ((calculateSummaryStats ps).winningPositions : ℚ) / (ps.length : ℚ) * 100 else 0)
    ∧ (calculateSummaryStats ([] : List Position)).winRate = 0
    ∧ (calculateSummaryStats ps).expectedValueUSD
      = (if 0 < ps.length then
            ((calculateSummaryStats ps).winningPositions : ℚ) / (ps.length : ℚ) else 0)
          * (if 0 < (calculateSummaryStats ps).winningPositions then
              (calculateSummaryStats ps).totalWinPnlUSD
                / ((calculateSummaryStats ps).winningPositions : ℚ) else 0)
        + (if 0 < ps.length then
            ((calculateSummaryStats ps).losingPositions : ℚ) / (ps.length : ℚ) else 0)
          * (if 0 < (calculateSummaryStats ps).losingPositions then
              (calculateSummaryStats ps).totalLossPnlUSD
                / ((calculateSummaryStats ps).losingPositions : ℚ) else 0)
    ∧ (calculateSummaryStats scenarioPositions).winRate = 200 / 3
    ∧ (calculateSummaryStats scenarioPositions).expectedValueUSD = 70 / 3 := by
  refine ⟨?_, ?_, rfl, rfl, rfl, ?_, ?_⟩
  · show (ps.foldl summaryStep initSummaryAcc).winningPositions = _
    rw [summary_foldl_wins]
    simp [initSummaryAcc]
  · show (ps.foldl summaryStep initSummaryAcc).losingPositions = _
    rw [summary_foldl_losses]
    simp [initSummaryAcc]
  · norm_num [calculateSummaryStats, scenarioPositions, summaryStep, initSummaryAcc, qD]
  · norm_num [calculateSummaryStats, scenarioPositions, summaryStep, initSummaryAcc, qD]

end DammPnl
